import Mathlib

/-!
Shallow embedding of the Sing-thru pitch-detection core: the autocorrelation
detector, the YIN detector, the median stabilizer and the two PitchController
variants (the YIN-based controller with hold/fallback state and the
autocorrelation-based controller), together with the start/stop lifecycle.

Real-valued JS numbers are modelled as exact rationals (ℚ); JS `Math.floor`
is `Int.floor`; division by zero (which in JS produces ±Infinity and is then
caught by `isFinite`) is modelled by explicit zero tests where the source
checks finiteness.  The transcendental Hann-window coefficients
`0.5 - 0.5*cos(2*pi*i/(L-1))` are abstracted into an arbitrary coefficient
sequence `coeff : ℕ → ℚ`; every theorem below quantifies over the
coefficients, so the concrete Hann choice is one instance.
-/

set_option maxRecDepth 20000

/-- Source: `const clamp = (value, min, max) => Math.max(min, Math.min(max, value))`.
The JS parameter names `min`/`max` are renamed `lo`/`hi` to avoid shadowing. -/
def clamp (value lo hi : ℚ) : ℚ := max lo (min hi value)

/-- Source: `median`, from the YIN module.  A copy of the buffer is sorted
ascending (`sort((a, b) => a - b)`), then the middle element (odd length) or
the mean of the two middle elements (even length) is returned.  Out-of-range
reads (possible only for the empty list, which the controller never passes)
default to 0. -/
def median (values : List ℚ) : ℚ :=
  let sorted := values.insertionSort (· ≤ ·)
  let middle := sorted.length / 2
  if sorted.length % 2 = 0 then (sorted.getD (middle - 1) 0 + sorted.getD middle 0) / 2
  else sorted.getD middle 0

/-- `sumTo f n = f 0 + f 1 + ... + f (n-1)`: the accumulation pattern of the
source's `for` loops. -/
def sumTo (f : ℕ → ℚ) : ℕ → ℚ
  | 0 => 0
  | n + 1 => sumTo f n + f n

/-- Result record of the YIN detector: `{ frequency, probability }`. -/
structure PitchEstimate where
  frequency : ℚ
  probability : ℚ
deriving DecidableEq

/-- Constructor configuration of both PitchController variants:
`{ minPitch = 110, maxPitch = 550, smoothing }` (the output callback is
modelled by returning the emitted value). -/
structure PitchConfig where
  minPitch : ℚ
  maxPitch : ℚ
  smoothing : ℚ
deriving DecidableEq

/-- The scanning state of `autoCorrelate`'s offset loop:
`bestOffset = -1`, `bestCorrelation = 0`, `lastCorrelation = 1`,
`foundGoodCorrelation = false` initially. -/
structure AcScan where
  bestOffset : ℤ
  bestCorrelation : ℚ
  lastCorrelation : ℚ
  foundGood : Bool
deriving DecidableEq

def acScanInit : AcScan := ⟨-1, 0, 1, false⟩

/-- One offset's correlation:
`1 - (Σ_{i < MAX_SAMPLES} |buffer[i] - buffer[i+offset]|) / MAX_SAMPLES`. -/
def acCorrelation (buffer : List ℚ) (maxSamples offset : ℕ) : ℚ :=
  1 - sumTo (fun i => |buffer.getD i 0 - buffer.getD (i + offset) 0|) maxSamples / maxSamples

/-- The offset loop of `autoCorrelate` (source lines 24-43 of the
autocorrelation module).  `Sum.inr` is the early `return` with the
slope-refined frequency; `Sum.inl` is falling through the loop with the final
scan state. -/
def acLoop (buffer : List ℚ) (sampleRate : ℚ) (maxSamples : ℕ) :
    List ℕ → AcScan → AcScan ⊕ ℚ
  | [], st => Sum.inl st
  | offset :: rest, st =>
    let correlation := acCorrelation buffer maxSamples offset
    if 9/10 < correlation ∧ st.lastCorrelation < correlation then
      let st' : AcScan :=
        if st.bestCorrelation < correlation then ⟨(offset : ℤ), correlation, correlation, true⟩
        else ⟨st.bestOffset, st.bestCorrelation, correlation, true⟩
      acLoop buffer sampleRate maxSamples rest st'
    else if st.foundGood then
      Sum.inr (sampleRate /
        ((st.bestOffset : ℚ) + 8 * ((correlation - st.lastCorrelation) / st.bestCorrelation)))
    else
      acLoop buffer sampleRate maxSamples rest
        ⟨st.bestOffset, st.bestCorrelation, correlation, st.foundGood⟩

/-- Source: `autoCorrelate(buffer, sampleRate)`.  The silence guard in JS is
`Math.sqrt(total/SIZE) < 0.01`; for `SIZE > 0` the radicand is nonnegative so
this is equivalent to `total/SIZE < 1/10000`, which is how it is modelled
(for `SIZE = 0` the JS comparison is false on NaN, hence the `0 < SIZE`
conjunct; in that case the loop is empty and the function still returns
`null` through the final branch, in both JS and this model).  Since
`MIN_PITCH = 110 ≠ 0`, the offset loop starts at offset 0. -/
def autoCorrelate (buffer : List ℚ) (sampleRate : ℚ) : Option ℚ :=
  let SIZE := buffer.length
  let maxSamples := SIZE / 2
  let sumSquares := sumTo (fun i => buffer.getD i 0 * buffer.getD i 0) SIZE
  if 0 < SIZE ∧ sumSquares / SIZE < 1/10000 then none
  else
    match acLoop buffer sampleRate maxSamples (List.range maxSamples) acScanInit with
    | Sum.inr freq => some freq
    | Sum.inl st => if 1/100 < st.bestCorrelation then some (sampleRate / st.bestOffset) else none

/-- Source: `hannWindow(buffer)`, with the transcendental coefficient
`0.5 - 0.5*cos(2*pi*i/(buffer.length-1))` abstracted as `coeff i` (the true
coefficients lie in `[0, 1]` and vanish at both ends of the buffer). -/
def hannWindowWith (coeff : ℕ → ℚ) (buffer : List ℚ) : List ℚ :=
  (List.range buffer.length).map fun i => buffer.getD i 0 * coeff i

/-- YIN difference function `d(tau) = Σ_{i=0}^{L-tau-1} (w[i] - w[i+tau])²`. -/
def diffFn (w : List ℚ) (tau : ℕ) : ℚ :=
  sumTo (fun i => (w.getD i 0 - w.getD (i + tau) 0) ^ 2) (w.length - tau)

/-- Running cumulative sum `s(tau) = d(1) + ... + d(tau)`. -/
def cumSum (w : List ℚ) (tau : ℕ) : ℚ := sumTo (fun k => diffFn w (k + 1)) tau

/-- Cumulative-mean normalized difference:
`yinBuffer[tau] = cumulativeSum ? d(tau)*tau/cumulativeSum : 1`. -/
def yinNorm (w : List ℚ) (tau : ℕ) : ℚ :=
  if cumSum w tau = 0 then 1 else diffFn w tau * tau / cumSum w tau

/-- The inner `while (tau + 1 < tauMax && yinBuffer[tau+1] < yinBuffer[tau])`
descent to the local minimum, as fuelled recursion (the fuel `tauMax`
dominates the number of possible steps). -/
def yinDescendAux (n : ℕ → ℚ) (tauMax : ℕ) : ℕ → ℕ → ℕ
  | 0, tau => tau
  | fuel + 1, tau =>
    if tau + 1 < tauMax ∧ n (tau + 1) < n tau then yinDescendAux n tauMax fuel (tau + 1) else tau

def yinDescend (n : ℕ → ℚ) (tauMax tau : ℕ) : ℕ := yinDescendAux n tauMax tauMax tau

/-- The absolute-threshold search (source lines 182-191): the first
`tau ∈ [tauMin, tauMax)` with `yinBuffer[tau] < 0.12`, followed by the descent
to the local minimum; `none` is the `tauEstimate === -1` outcome. -/
def yinSearch (n : ℕ → ℚ) (tauMin tauMax : ℕ) : Option ℕ :=
  match (List.range' tauMin (tauMax - tauMin)).find? (fun tau => decide (n tau < 12/100)) with
  | none => none
  | some tau => some (yinDescend n tauMax tau)

/-- `yinPitch` after the Hann window has been applied: the buffer `w` is the
windowed buffer.  `Math.floor` is `Int.floor`; the JS `isFinite(frequency)`
test fails exactly when `betterTau = 0` (division by zero), which is the
modelled condition. -/
def yinPitchFrom (w : List ℚ) (sampleRate minFrequency maxFrequency : ℚ) :
    Option PitchEstimate :=
  let bufferSize := w.length
  let tauMinZ : ℤ := max 2 ⌊sampleRate / maxFrequency⌋
  let tauMaxZ : ℤ := min ⌊sampleRate / minFrequency⌋ ((bufferSize : ℤ) - 1)
  if tauMaxZ ≤ tauMinZ then none
  else
    let tauMin := tauMinZ.toNat
    let tauMax := tauMaxZ.toNat
    if cumSum w (tauMax - 1) < 1/1000000000 then none
    else
      match yinSearch (yinNorm w) tauMin tauMax with
      | none => none
      | some tauEstimate =>
        let probability := 1 - yinNorm w tauEstimate
        if probability < 1/10 then none
        else
          let betterTau : ℚ :=
            if 1 < tauEstimate ∧ tauEstimate < tauMax - 1 then
              let s0 := yinNorm w (tauEstimate - 1)
              let s1 := yinNorm w tauEstimate
              let s2 := yinNorm w (tauEstimate + 1)
              let den := s0 + s2 - 2 * s1
              if den = 0 then (tauEstimate : ℚ) else (tauEstimate : ℚ) + (s0 - s2) / (2 * den)
            else (tauEstimate : ℚ)
          if betterTau = 0 then none
          else some ⟨sampleRate / betterTau, probability⟩

/-- Source: `yinPitch(buffer, sampleRate, minFrequency, maxFrequency)`,
parametrized by the window coefficients (see `hannWindowWith`). -/
def yinPitch (coeff : ℕ → ℚ) (buffer : List ℚ) (sampleRate minFrequency maxFrequency : ℚ) :
    Option PitchEstimate :=
  yinPitchFrom (hannWindowWith coeff buffer) sampleRate minFrequency maxFrequency

/-- `recentDetections.push(normalized); if (length > maxDetections) shift()`. -/
def pushDetection (maxDetections : ℕ) (hist : List ℚ) (v : ℚ) : List ℚ :=
  let pushed := hist ++ [v]
  if maxDetections < pushed.length then pushed.tail else pushed

/-- The three-tier dynamic smoothing of the YIN controller (source line 303):
`delta > 0.4 ? 0.85 : delta > 0.15 ? 0.55 : Math.max(smoothing, 0.18)`. -/
def dynamicSmoothingYin (smoothing delta : ℚ) : ℚ :=
  if 2/5 < delta then 17/20 else if 3/20 < delta then 11/20 else max smoothing (9/50)

/-- The two-tier dynamic smoothing of the autocorrelation controller (source
line 130): `delta > 0.25 ? 0.55 : delta > 0.1 ? 0.4 : smoothing`. -/
def dynamicSmoothingAc (smoothing delta : ℚ) : ℚ :=
  if 1/4 < delta then 11/20 else if 1/10 < delta then 2/5 else smoothing

/-- The shared tail of both `processAudio` bodies once a raw `normalized`
value exists: push it into the history, take the median, pick the dynamic
smoothing factor from the delta and move `normalizedValue` toward the median.
Returns the new `normalizedValue` (which is also emitted) and history. -/
def stabilizeEmit (dyn : ℚ → ℚ) (maxDetections : ℕ) (prev : ℚ) (hist : List ℚ)
    (normalized : ℚ) : ℚ × List ℚ :=
  let hist' := pushDetection maxDetections hist normalized
  let stabilized := median hist'
  let delta := |stabilized - prev|
  let alpha := dyn delta
  (prev + (stabilized - prev) * alpha, hist')

/-- Mutable state of the YIN-based PitchController
(`normalizedValue = 0.5`, `fallbackTimer = 0`, `recentDetections = []`,
`lastFrequency = null`, `silenceFrames = 0` at construction). -/
structure YinCtrl where
  normalizedValue : ℚ
  fallbackTimer : ℕ
  recentDetections : List ℚ
  lastFrequency : Option ℚ
  silenceFrames : ℕ
deriving DecidableEq

def yinCtrlInit : YinCtrl := ⟨1/2, 0, [], none, 0⟩

/-- One frame of the YIN controller's `processAudio` (source lines 274-312),
as a function of the detector outcome.  JS truthiness of `this.lastFrequency`
(`null` and `0` are falsy) is `s.lastFrequency.getD 0 ≠ 0`.  The second
component is the value passed to the output callback (the callback fires in
both the raw-value and the no-raw-value branch). -/
def yinStep (cfg : PitchConfig) (s : YinCtrl) (detection : Option PitchEstimate) :
    YinCtrl × ℚ :=
  match detection with
  | some det =>
    let clampedFreq := clamp det.frequency cfg.minPitch cfg.maxPitch
    let normalized := clamp ((clampedFreq - cfg.minPitch) / (cfg.maxPitch - cfg.minPitch)) 0 1
    let r := stabilizeEmit (dynamicSmoothingYin cfg.smoothing) 5
      s.normalizedValue s.recentDetections normalized
    (⟨r.1, 0, r.2, some clampedFreq, 0⟩, r.1)
  | none =>
    if s.lastFrequency.getD 0 ≠ 0 ∧ s.silenceFrames < 6 then
      let normalized :=
        clamp ((s.lastFrequency.getD 0 - cfg.minPitch) / (cfg.maxPitch - cfg.minPitch)) 0 1
      let r := stabilizeEmit (dynamicSmoothingYin cfg.smoothing) 5
        s.normalizedValue s.recentDetections normalized
      (⟨r.1, s.fallbackTimer, r.2, s.lastFrequency, s.silenceFrames + 1⟩, r.1)
    else
      if 12 < s.fallbackTimer + 1 then
        let r := stabilizeEmit (dynamicSmoothingYin cfg.smoothing) 5
          s.normalizedValue s.recentDetections (1/2)
        (⟨r.1, s.fallbackTimer + 1, r.2, none, s.silenceFrames + 1⟩, r.1)
      else
        (⟨s.normalizedValue, s.fallbackTimer + 1, s.recentDetections, s.lastFrequency,
          s.silenceFrames + 1⟩, s.normalizedValue)

/-- Run the YIN controller over a list of per-frame detector outcomes,
collecting the emitted values. -/
def yinRun (cfg : PitchConfig) : YinCtrl → List (Option PitchEstimate) → List ℚ
  | _, [] => []
  | s, d :: ds => (yinStep cfg s d).2 :: yinRun cfg (yinStep cfg s d).1 ds

/-- Final controller state after a list of frames. -/
def yinRunState (cfg : PitchConfig) : YinCtrl → List (Option PitchEstimate) → YinCtrl
  | s, [] => s
  | s, d :: ds => yinRunState cfg (yinStep cfg s d).1 ds

/-- Mutable state of the autocorrelation-based PitchController variant
(`maxDetections = 7`). -/
structure AcCtrl where
  normalizedValue : ℚ
  fallbackTimer : ℕ
  recentDetections : List ℚ
deriving DecidableEq

def acCtrlInit : AcCtrl := ⟨1/2, 0, []⟩

/-- The no-usable-frequency branch of the autocorrelation controller:
increment `fallbackTimer` and recentre on `0.5` once it exceeds 10. -/
def acCtrlSilent (cfg : PitchConfig) (s : AcCtrl) : AcCtrl × ℚ :=
  if 10 < s.fallbackTimer + 1 then
    let r := stabilizeEmit (dynamicSmoothingAc cfg.smoothing) 7
      s.normalizedValue s.recentDetections (1/2)
    (⟨r.1, s.fallbackTimer + 1, r.2⟩, r.1)
  else
    (⟨s.normalizedValue, s.fallbackTimer + 1, s.recentDetections⟩, s.normalizedValue)

/-- One frame of the autocorrelation controller's `processAudio` (source
lines 109-138 of the autocorrelation module).  `freq && freq > 0` is truthy
exactly when the detector returned a strictly positive frequency. -/
def acCtrlStep (cfg : PitchConfig) (s : AcCtrl) (freq : Option ℚ) : AcCtrl × ℚ :=
  match freq with
  | some f =>
    if 0 < f then
      let clampedFreq := clamp f cfg.minPitch cfg.maxPitch
      let normalized := clamp ((clampedFreq - cfg.minPitch) / (cfg.maxPitch - cfg.minPitch)) 0 1
      let r := stabilizeEmit (dynamicSmoothingAc cfg.smoothing) 7
        s.normalizedValue s.recentDetections normalized
      (⟨r.1, 0, r.2⟩, r.1)
    else acCtrlSilent cfg s
  | none => acCtrlSilent cfg s

def acRun (cfg : PitchConfig) : AcCtrl → List (Option ℚ) → List ℚ
  | _, [] => []
  | s, d :: ds => (acCtrlStep cfg s d).2 :: acRun cfg (acCtrlStep cfg s d).1 ds

/-- Whole-object state of the YIN-based PitchController: the numeric state
plus the lifecycle fields (`audioContext`, `analyser`, `dataArray` model
whether the corresponding JS field is non-null). -/
structure YinController where
  cfg : PitchConfig
  ctrl : YinCtrl
  isRunning : Bool
  audioContext : Bool
  analyser : Bool
  dataArray : Bool
deriving DecidableEq

/-- The constructor: all resources null, not running, fresh numeric state. -/
def newPitchController (cfg : PitchConfig) : YinController :=
  ⟨cfg, yinCtrlInit, false, false, false, false⟩

structure StartResult where
  threw : Bool
  state : YinController
deriving DecidableEq

/-- Source `start()` (lines 243-257): early-return when already running;
otherwise `await getUserMedia` — its rejection (modelled by
`acquireOk = false`) throws out of `start` before any field has been
assigned — then the audio context, analyser and data array are created and
`isRunning` is set. -/
def PitchController.start (s : YinController) (acquireOk : Bool) : StartResult :=
  if s.isRunning then ⟨false, s⟩
  else if acquireOk then
    ⟨false, ⟨s.cfg, s.ctrl, true, true, true, true⟩⟩
  else ⟨true, s⟩

/-- Source `stop()` (lines 259-265): clear `isRunning`, close and null the
audio context.  Note that `analyser` and `dataArray` are not cleared. -/
def PitchController.stop (s : YinController) : YinController :=
  { s with isRunning := false, audioContext := false }

/-- Source `processAudio` entry guard plus one frame:
`if (!this.isRunning || !this.analyser) return;`. -/
def PitchController.processFrame (s : YinController) (detection : Option PitchEstimate) :
    YinController × Option ℚ :=
  if s.isRunning = false ∨ s.analyser = false then (s, none)
  else ({ s with ctrl := (yinStep s.cfg s.ctrl detection).1 },
        some (yinStep s.cfg s.ctrl detection).2)

/-- Default configuration of the YIN controller variant:
`minPitch = 110`, `maxPitch = 550`, `smoothing = 0.25`. -/
def defaultConfig : PitchConfig := ⟨110, 550, 1/4⟩

/-- A detector outcome at the top of the configured pitch range. -/
def det550 : PitchEstimate := ⟨550, 1⟩

/-- One voiced frame (setting `lastFrequency := 550`) followed by 22 silent
(no-detection) frames: the scenario of the 20-silent-frames test, extended by
two frames so the eventual decay toward 0.5 is visible. -/
def outcomesC4 : List (Option PitchEstimate) := some det550 :: List.replicate 22 none

/-- The values emitted by the YIN controller on that scenario (index 0 is the
voiced frame; index `k` is silent frame `k`). -/
def emitsC4 : List ℚ := yinRun defaultConfig yinCtrlInit outcomesC4

/-- An input buffer for the YIN detector: 20 samples, all in `[-1, 1]`
(multiples of 1/1000). -/
def cexBuffer : List ℚ :=
  [0, 1, 1, 147/250, 303/500, 29/100, 261/1000, 33/500, 41/1000, -3/125, -3/250, 11/250, 19/200, 53/200, 61/200, 303/500, 237/500, 1, 257/1000, 0]

/-- The Hann window coefficients for a 20-sample buffer,
`0.5 - 0.5*cos(2*pi*i/19)`, each rounded to 6 decimal places (absolute error
below `4e-7`; the sequence keeps the exact symmetry `c i = c (19 - i)` and
the exact zeros at both ends).  Every comparison decided in the run below
holds with margin at least `1.3e-3`, more than a thousand times the
perturbation this rounding (or the source's float32 storage) can introduce,
so the run with the exact transcendental coefficients takes exactly the same
branches. -/
def cexCoeffList : List ℚ :=
  [0, 27091/1000000, 10543/100000, 113263/500000, 377257/1000000, 54129/100000, 43803/62500, 838641/1000000, 939737/1000000, 993181/1000000, 993181/1000000, 939737/1000000, 838641/1000000, 43803/62500, 54129/100000, 377257/1000000, 113263/500000, 10543/100000, 27091/1000000, 0]

def cexCoeff : ℕ → ℚ := fun i => cexCoeffList.getD i 0

/-- The windowed buffer `hannWindowWith cexCoeff cexBuffer` (the exact
products `cexBuffer[i] * cexCoeffList[i]`). -/
def cexW : List ℚ :=
  [0, 27091/1000000, 10543/100000, 16649661/125000000, 114308871/500000000, 1569741/10000000, 11432583/62500000, 27675153/500000000, 38529217/1000000000, -2979543/125000000, -2979543/250000000, 10337107/250000000, 15934179/200000000, 2321559/12500000, 3301869/20000000, 114308871/500000000, 26843331/250000000, 10543/100000, 6962387/1000000000, 0]

/-- A YIN controller that has successfully started and processed one voiced
frame at 550 Hz (so its smoothed value has moved off the neutral 0.5). -/
def cexAfterVoiced : YinController :=
  (PitchController.processFrame ((PitchController.start (newPitchController defaultConfig)
    true).state) (some det550)).1

/-- The same controller after `stop()`. -/
def cexStopped : YinController := PitchController.stop cexAfterVoiced

/-- The same controller after `stop()` followed by a successful `start()`. -/
def cexRestarted : YinController := (PitchController.start cexStopped true).state

/-- The all-ones window coefficients (used to exercise the detector on an
unmodified buffer). -/
def onesCoeff : ℕ → ℚ := fun _ => 1

/-- A perfectly period-2 buffer used as a concrete witness input for the YIN
threshold search. -/
def w8 : List ℚ := [0, 1, 0, 1, 0, 1, 0, 1]

/-! ### Shared bound lemmas for the stabilizer and controllers -/

lemma clamp01_bounds (x : ℚ) : 0 ≤ clamp x 0 1 ∧ clamp x 0 1 ≤ 1 := by
  unfold clamp
  exact ⟨le_max_left 0 _, max_le (by norm_num) (min_le_left 1 x)⟩

lemma getD_bounds {l : List ℚ} (hb : ∀ x ∈ l, 0 ≤ x ∧ x ≤ 1) {i : ℕ} (hi : i < l.length) :
    0 ≤ l.getD i 0 ∧ l.getD i 0 ≤ 1 := by
  rw [List.getD_eq_getElem?_getD, List.getElem?_eq_getElem hi]
  exact hb _ (List.getElem_mem hi)

lemma median_bounds {l : List ℚ} (hne : l ≠ []) (hb : ∀ x ∈ l, 0 ≤ x ∧ x ≤ 1) :
    0 ≤ median l ∧ median l ≤ 1 := by
  simp only [median]
  have hperm := List.perm_insertionSort (· ≤ ·) l
  have hbs : ∀ x ∈ l.insertionSort (· ≤ ·), 0 ≤ x ∧ x ≤ 1 :=
    fun x hx => hb x (hperm.mem_iff.mp hx)
  have hpos : 0 < (l.insertionSort (· ≤ ·)).length := by
    rw [hperm.length_eq]
    exact List.length_pos.mpr hne
  have hmidlt : (l.insertionSort (· ≤ ·)).length / 2 < (l.insertionSort (· ≤ ·)).length :=
    Nat.div_lt_self hpos (by norm_num)
  have h2 := getD_bounds hbs hmidlt
  split
  · have h1 := getD_bounds hbs (lt_of_le_of_lt (Nat.sub_le _ 1) hmidlt)
    constructor
    · linarith [h1.1, h2.1]
    · linarith [h1.2, h2.2]
  · exact h2

lemma pushDetection_sub {k : ℕ} {h : List ℚ} {v x : ℚ} (hx : x ∈ pushDetection k h v) :
    x ∈ h ∨ x = v := by
  simp only [pushDetection] at hx
  split at hx
  · have hx' : x ∈ h ++ [v] := List.mem_of_mem_tail hx
    simpa using hx'
  · simpa using hx

lemma pushDetection_ne_nil {k : ℕ} (hk : 0 < k) (h : List ℚ) (v : ℚ) :
    pushDetection k h v ≠ [] := by
  simp only [pushDetection]
  split
  next hlt =>
    apply List.ne_nil_of_length_pos
    rw [List.length_tail]
    simp only [List.length_append, List.length_singleton] at hlt ⊢
    omega
  next => simp

lemma dynamicSmoothingYin_bounds {s : ℚ} (_h0 : 0 < s) (h1 : s < 1) (d : ℚ) :
    0 ≤ dynamicSmoothingYin s d ∧ dynamicSmoothingYin s d ≤ 1 := by
  unfold dynamicSmoothingYin
  split
  · norm_num
  · split
    · norm_num
    · exact ⟨le_max_of_le_right (by norm_num), max_le h1.le (by norm_num)⟩

lemma dynamicSmoothingAc_bounds {s : ℚ} (h0 : 0 < s) (h1 : s < 1) (d : ℚ) :
    0 ≤ dynamicSmoothingAc s d ∧ dynamicSmoothingAc s d ≤ 1 := by
  unfold dynamicSmoothingAc
  split
  · norm_num
  · split
    · norm_num
    · exact ⟨h0.le, h1.le⟩

lemma stabilizeEmit_bounds (dyn : ℚ → ℚ) (hdyn : ∀ d, 0 ≤ dyn d ∧ dyn d ≤ 1) (k : ℕ)
    (hk : 0 < k) (prev : ℚ) (hprev : 0 ≤ prev ∧ prev ≤ 1) (hist : List ℚ)
    (hh : ∀ x ∈ hist, 0 ≤ x ∧ x ≤ 1) (v : ℚ) (hv : 0 ≤ v ∧ v ≤ 1) :
    (0 ≤ (stabilizeEmit dyn k prev hist v).1 ∧ (stabilizeEmit dyn k prev hist v).1 ≤ 1) ∧
    ∀ x ∈ (stabilizeEmit dyn k prev hist v).2, 0 ≤ x ∧ x ≤ 1 := by
  have hh' : ∀ x ∈ pushDetection k hist v, 0 ≤ x ∧ x ≤ 1 := by
    intro x hx
    rcases pushDetection_sub hx with hmem | heq
    · exact hh x hmem
    · exact heq ▸ hv
  have hmed := median_bounds (pushDetection_ne_nil hk hist v) hh'
  have ha := hdyn |median (pushDetection k hist v) - prev|
  refine ⟨⟨?_, ?_⟩, hh'⟩
  · simp only [stabilizeEmit]
    nlinarith [hmed.1, hmed.2, ha.1, ha.2, hprev.1, hprev.2,
      mul_nonneg hprev.1 (sub_nonneg.mpr ha.2), mul_nonneg hmed.1 ha.1]
  · simp only [stabilizeEmit]
    nlinarith [hmed.1, hmed.2, ha.1, ha.2, hprev.1, hprev.2,
      mul_nonneg (sub_nonneg.mpr hprev.2) (sub_nonneg.mpr ha.2),
      mul_nonneg (sub_nonneg.mpr hmed.2) ha.1]

/-- The invariant of the YIN controller state: the smoothed value and every
history entry lie in `[0, 1]`. -/
def YinInv (s : YinCtrl) : Prop :=
  (0 ≤ s.normalizedValue ∧ s.normalizedValue ≤ 1) ∧
  ∀ x ∈ s.recentDetections, 0 ≤ x ∧ x ≤ 1

lemma yinStep_bounds (cfg : PitchConfig) (h0 : 0 < cfg.smoothing) (h1 : cfg.smoothing < 1)
    {s : YinCtrl} (hs : YinInv s) (d : Option PitchEstimate) :
    YinInv (yinStep cfg s d).1 ∧ 0 ≤ (yinStep cfg s d).2 ∧ (yinStep cfg s d).2 ≤ 1 := by
  obtain ⟨hnv, hhist⟩ := hs
  have hdyn := dynamicSmoothingYin_bounds h0 h1
  cases d with
  | some det =>
    have hb := stabilizeEmit_bounds _ hdyn 5 (by norm_num) s.normalizedValue hnv
      s.recentDetections hhist
      (clamp ((clamp det.frequency cfg.minPitch cfg.maxPitch - cfg.minPitch) /
        (cfg.maxPitch - cfg.minPitch)) 0 1) (clamp01_bounds _)
    exact ⟨⟨hb.1, hb.2⟩, hb.1⟩
  | none =>
    simp only [yinStep]
    split
    · have hb := stabilizeEmit_bounds _ hdyn 5 (by norm_num) s.normalizedValue hnv
        s.recentDetections hhist
        (clamp ((s.lastFrequency.getD 0 - cfg.minPitch) / (cfg.maxPitch - cfg.minPitch)) 0 1)
        (clamp01_bounds _)
      exact ⟨⟨hb.1, hb.2⟩, hb.1⟩
    · split
      · have hb := stabilizeEmit_bounds _ hdyn 5 (by norm_num) s.normalizedValue hnv
          s.recentDetections hhist (1/2) (by norm_num)
        exact ⟨⟨hb.1, hb.2⟩, hb.1⟩
      · exact ⟨⟨hnv, hhist⟩, hnv.1, hnv.2⟩

lemma yinRun_bounds (cfg : PitchConfig) (h0 : 0 < cfg.smoothing) (h1 : cfg.smoothing < 1)
    (ds : List (Option PitchEstimate)) :
    ∀ s : YinCtrl, YinInv s → ∀ v ∈ yinRun cfg s ds, 0 ≤ v ∧ v ≤ 1 := by
  induction ds with
  | nil => intro s _ v hv; simp [yinRun] at hv
  | cons d ds ih =>
    intro s hs v hv
    have hstep := yinStep_bounds cfg h0 h1 hs d
    simp only [yinRun, List.mem_cons] at hv
    rcases hv with heq | hmem
    · exact heq ▸ ⟨hstep.2.1, hstep.2.2⟩
    · exact ih _ hstep.1 v hmem

/-- The invariant of the autocorrelation controller state. -/
def AcInv (s : AcCtrl) : Prop :=
  (0 ≤ s.normalizedValue ∧ s.normalizedValue ≤ 1) ∧
  ∀ x ∈ s.recentDetections, 0 ≤ x ∧ x ≤ 1

lemma acCtrlSilent_bounds (cfg : PitchConfig) (h0 : 0 < cfg.smoothing)
    (h1 : cfg.smoothing < 1) {s : AcCtrl} (hs : AcInv s) :
    AcInv (acCtrlSilent cfg s).1 ∧ 0 ≤ (acCtrlSilent cfg s).2 ∧ (acCtrlSilent cfg s).2 ≤ 1 := by
  obtain ⟨hnv, hhist⟩ := hs
  have hdyn := dynamicSmoothingAc_bounds h0 h1
  simp only [acCtrlSilent]
  split
  · have hb := stabilizeEmit_bounds _ hdyn 7 (by norm_num) s.normalizedValue hnv
      s.recentDetections hhist (1/2) (by norm_num)
    exact ⟨⟨hb.1, hb.2⟩, hb.1⟩
  · exact ⟨⟨hnv, hhist⟩, hnv.1, hnv.2⟩

lemma acCtrlStep_bounds (cfg : PitchConfig) (h0 : 0 < cfg.smoothing) (h1 : cfg.smoothing < 1)
    {s : AcCtrl} (hs : AcInv s) (d : Option ℚ) :
    AcInv (acCtrlStep cfg s d).1 ∧ 0 ≤ (acCtrlStep cfg s d).2 ∧ (acCtrlStep cfg s d).2 ≤ 1 := by
  obtain ⟨hnv, hhist⟩ := hs
  have hdyn := dynamicSmoothingAc_bounds h0 h1
  cases d with
  | some f =>
    simp only [acCtrlStep]
    split
    · have hb := stabilizeEmit_bounds _ hdyn 7 (by norm_num) s.normalizedValue hnv
        s.recentDetections hhist
        (clamp ((clamp f cfg.minPitch cfg.maxPitch - cfg.minPitch) /
          (cfg.maxPitch - cfg.minPitch)) 0 1) (clamp01_bounds _)
      exact ⟨⟨hb.1, hb.2⟩, hb.1⟩
    · exact acCtrlSilent_bounds cfg h0 h1 ⟨hnv, hhist⟩
  | none => exact acCtrlSilent_bounds cfg h0 h1 ⟨hnv, hhist⟩

lemma acRun_bounds (cfg : PitchConfig) (h0 : 0 < cfg.smoothing) (h1 : cfg.smoothing < 1)
    (ds : List (Option ℚ)) :
    ∀ s : AcCtrl, AcInv s → ∀ v ∈ acRun cfg s ds, 0 ≤ v ∧ v ≤ 1 := by
  induction ds with
  | nil => intro s _ v hv; simp [acRun] at hv
  | cons d ds ih =>
    intro s hs v hv
    have hstep := acCtrlStep_bounds cfg h0 h1 hs d
    simp only [acRun, List.mem_cons] at hv
    rcases hv with heq | hmem
    · exact heq ▸ ⟨hstep.2.1, hstep.2.2⟩
    · exact ih _ hstep.1 v hmem

/-- Claim C1: for every sequence of processed frames and every detector
outcome, each value the Controller passes to the output callback lies in
`[0, 1]`: starting from the initial smoothed value 0.5, every emitted
smoothed value stays within `[0, 1]`.  Proved for both controller variants
(the YIN controller of the primary module and the autocorrelation
controller), for every configuration with `0 < smoothing < 1` and
`minPitch < maxPitch`. -/
theorem emitted_values_in_unit_interval (cfg : PitchConfig)
    (dets : List (Option PitchEstimate)) (freqs : List (Option ℚ))
    (h0 : 0 < cfg.smoothing) (h1 : cfg.smoothing < 1) (_h2 : cfg.minPitch < cfg.maxPitch) :
    (∀ v ∈ yinRun cfg yinCtrlInit dets, 0 ≤ v ∧ v ≤ 1) ∧
    (∀ v ∈ acRun cfg acCtrlInit freqs, 0 ≤ v ∧ v ≤ 1) :=
  ⟨yinRun_bounds cfg h0 h1 dets yinCtrlInit ⟨by norm_num [yinCtrlInit], by simp [yinCtrlInit]⟩,
   acRun_bounds cfg h0 h1 freqs acCtrlInit ⟨by norm_num [acCtrlInit], by simp [acCtrlInit]⟩⟩

/-- Witness for C1 at the default configuration on concrete frame sequences. -/
theorem emitted_values_in_unit_interval_witness :
    (∀ v ∈ yinRun defaultConfig yinCtrlInit [some det550, none], 0 ≤ v ∧ v ≤ 1) ∧
    (∀ v ∈ acRun defaultConfig acCtrlInit [some 220, none], 0 ≤ v ∧ v ≤ 1) :=
  emitted_values_in_unit_interval defaultConfig [some det550, none] [some 220, none]
    (by norm_num [defaultConfig]) (by norm_num [defaultConfig]) (by norm_num [defaultConfig])

/-! ### Exact per-frame evaluation of the 22-silent-frame scenario (C2, C4) -/

lemma yinC4Step0 : yinStep defaultConfig ⟨1/2, 0, [], none, 0⟩ (some det550) =
    (⟨37/40, 0, [1], some (550), 0⟩, 37/40) := by
  norm_num [yinStep, defaultConfig, det550, stabilizeEmit, pushDetection, median,
    dynamicSmoothingYin, clamp, List.insertionSort, List.orderedInsert, abs, sup_eq_max,
    max_def, min_def]

lemma yinC4Step1 : yinStep defaultConfig ⟨37/40, 0, [1], some (550), 0⟩ none =
    (⟨151/160, 0, [1, 1], some (550), 1⟩, 151/160) := by
  norm_num [yinStep, defaultConfig, det550, stabilizeEmit, pushDetection, median,
    dynamicSmoothingYin, clamp, List.insertionSort, List.orderedInsert, abs, sup_eq_max,
    max_def, min_def]

lemma yinC4Step2 : yinStep defaultConfig ⟨151/160, 0, [1, 1], some (550), 1⟩ none =
    (⟨613/640, 0, [1, 1, 1], some (550), 2⟩, 613/640) := by
  norm_num [yinStep, defaultConfig, det550, stabilizeEmit, pushDetection, median,
    dynamicSmoothingYin, clamp, List.insertionSort, List.orderedInsert, abs, sup_eq_max,
    max_def, min_def]

lemma yinC4Step3 : yinStep defaultConfig ⟨613/640, 0, [1, 1, 1], some (550), 2⟩ none =
    (⟨2479/2560, 0, [1, 1, 1, 1], some (550), 3⟩, 2479/2560) := by
  norm_num [yinStep, defaultConfig, det550, stabilizeEmit, pushDetection, median,
    dynamicSmoothingYin, clamp, List.insertionSort, List.orderedInsert, abs, sup_eq_max,
    max_def, min_def]

lemma yinC4Step4 : yinStep defaultConfig ⟨2479/2560, 0, [1, 1, 1, 1], some (550), 3⟩ none =
    (⟨9997/10240, 0, [1, 1, 1, 1, 1], some (550), 4⟩, 9997/10240) := by
  norm_num [yinStep, defaultConfig, det550, stabilizeEmit, pushDetection, median,
    dynamicSmoothingYin, clamp, List.insertionSort, List.orderedInsert, abs, sup_eq_max,
    max_def, min_def]

lemma yinC4Step5 : yinStep defaultConfig ⟨9997/10240, 0, [1, 1, 1, 1, 1], some (550), 4⟩ none =
    (⟨40231/40960, 0, [1, 1, 1, 1, 1], some (550), 5⟩, 40231/40960) := by
  norm_num [yinStep, defaultConfig, det550, stabilizeEmit, pushDetection, median,
    dynamicSmoothingYin, clamp, List.insertionSort, List.orderedInsert, abs, sup_eq_max,
    max_def, min_def]

lemma yinC4Step6 : yinStep defaultConfig ⟨40231/40960, 0, [1, 1, 1, 1, 1], some (550), 5⟩ none =
    (⟨161653/163840, 0, [1, 1, 1, 1, 1], some (550), 6⟩, 161653/163840) := by
  norm_num [yinStep, defaultConfig, det550, stabilizeEmit, pushDetection, median,
    dynamicSmoothingYin, clamp, List.insertionSort, List.orderedInsert, abs, sup_eq_max,
    max_def, min_def]

lemma yinC4Step7 : yinStep defaultConfig ⟨161653/163840, 0, [1, 1, 1, 1, 1], some (550), 6⟩ none =
    (⟨161653/163840, 1, [1, 1, 1, 1, 1], some (550), 7⟩, 161653/163840) := by
  norm_num [yinStep, defaultConfig, det550, stabilizeEmit, pushDetection, median,
    dynamicSmoothingYin, clamp, List.insertionSort, List.orderedInsert, abs, sup_eq_max,
    max_def, min_def]

lemma yinC4Step8 : yinStep defaultConfig ⟨161653/163840, 1, [1, 1, 1, 1, 1], some (550), 7⟩ none =
    (⟨161653/163840, 2, [1, 1, 1, 1, 1], some (550), 8⟩, 161653/163840) := by
  norm_num [yinStep, defaultConfig, det550, stabilizeEmit, pushDetection, median,
    dynamicSmoothingYin, clamp, List.insertionSort, List.orderedInsert, abs, sup_eq_max,
    max_def, min_def]

lemma yinC4Step9 : yinStep defaultConfig ⟨161653/163840, 2, [1, 1, 1, 1, 1], some (550), 8⟩ none =
    (⟨161653/163840, 3, [1, 1, 1, 1, 1], some (550), 9⟩, 161653/163840) := by
  norm_num [yinStep, defaultConfig, det550, stabilizeEmit, pushDetection, median,
    dynamicSmoothingYin, clamp, List.insertionSort, List.orderedInsert, abs, sup_eq_max,
    max_def, min_def]

lemma yinC4Step10 : yinStep defaultConfig ⟨161653/163840, 3, [1, 1, 1, 1, 1], some (550), 9⟩ none =
    (⟨161653/163840, 4, [1, 1, 1, 1, 1], some (550), 10⟩, 161653/163840) := by
  norm_num [yinStep, defaultConfig, det550, stabilizeEmit, pushDetection, median,
    dynamicSmoothingYin, clamp, List.insertionSort, List.orderedInsert, abs, sup_eq_max,
    max_def, min_def]

lemma yinC4Step11 : yinStep defaultConfig ⟨161653/163840, 4, [1, 1, 1, 1, 1], some (550), 10⟩ none =
    (⟨161653/163840, 5, [1, 1, 1, 1, 1], some (550), 11⟩, 161653/163840) := by
  norm_num [yinStep, defaultConfig, det550, stabilizeEmit, pushDetection, median,
    dynamicSmoothingYin, clamp, List.insertionSort, List.orderedInsert, abs, sup_eq_max,
    max_def, min_def]

lemma yinC4Step12 : yinStep defaultConfig ⟨161653/163840, 5, [1, 1, 1, 1, 1], some (550), 11⟩ none =
    (⟨161653/163840, 6, [1, 1, 1, 1, 1], some (550), 12⟩, 161653/163840) := by
  norm_num [yinStep, defaultConfig, det550, stabilizeEmit, pushDetection, median,
    dynamicSmoothingYin, clamp, List.insertionSort, List.orderedInsert, abs, sup_eq_max,
    max_def, min_def]

lemma yinC4Step13 : yinStep defaultConfig ⟨161653/163840, 6, [1, 1, 1, 1, 1], some (550), 12⟩ none =
    (⟨161653/163840, 7, [1, 1, 1, 1, 1], some (550), 13⟩, 161653/163840) := by
  norm_num [yinStep, defaultConfig, det550, stabilizeEmit, pushDetection, median,
    dynamicSmoothingYin, clamp, List.insertionSort, List.orderedInsert, abs, sup_eq_max,
    max_def, min_def]

lemma yinC4Step14 : yinStep defaultConfig ⟨161653/163840, 7, [1, 1, 1, 1, 1], some (550), 13⟩ none =
    (⟨161653/163840, 8, [1, 1, 1, 1, 1], some (550), 14⟩, 161653/163840) := by
  norm_num [yinStep, defaultConfig, det550, stabilizeEmit, pushDetection, median,
    dynamicSmoothingYin, clamp, List.insertionSort, List.orderedInsert, abs, sup_eq_max,
    max_def, min_def]

lemma yinC4Step15 : yinStep defaultConfig ⟨161653/163840, 8, [1, 1, 1, 1, 1], some (550), 14⟩ none =
    (⟨161653/163840, 9, [1, 1, 1, 1, 1], some (550), 15⟩, 161653/163840) := by
  norm_num [yinStep, defaultConfig, det550, stabilizeEmit, pushDetection, median,
    dynamicSmoothingYin, clamp, List.insertionSort, List.orderedInsert, abs, sup_eq_max,
    max_def, min_def]

lemma yinC4Step16 : yinStep defaultConfig ⟨161653/163840, 9, [1, 1, 1, 1, 1], some (550), 15⟩ none =
    (⟨161653/163840, 10, [1, 1, 1, 1, 1], some (550), 16⟩, 161653/163840) := by
  norm_num [yinStep, defaultConfig, det550, stabilizeEmit, pushDetection, median,
    dynamicSmoothingYin, clamp, List.insertionSort, List.orderedInsert, abs, sup_eq_max,
    max_def, min_def]

lemma yinC4Step17 : yinStep defaultConfig ⟨161653/163840, 10, [1, 1, 1, 1, 1], some (550), 16⟩ none =
    (⟨161653/163840, 11, [1, 1, 1, 1, 1], some (550), 17⟩, 161653/163840) := by
  norm_num [yinStep, defaultConfig, det550, stabilizeEmit, pushDetection, median,
    dynamicSmoothingYin, clamp, List.insertionSort, List.orderedInsert, abs, sup_eq_max,
    max_def, min_def]

lemma yinC4Step18 : yinStep defaultConfig ⟨161653/163840, 11, [1, 1, 1, 1, 1], some (550), 17⟩ none =
    (⟨161653/163840, 12, [1, 1, 1, 1, 1], some (550), 18⟩, 161653/163840) := by
  norm_num [yinStep, defaultConfig, det550, stabilizeEmit, pushDetection, median,
    dynamicSmoothingYin, clamp, List.insertionSort, List.orderedInsert, abs, sup_eq_max,
    max_def, min_def]

lemma yinC4Step19 : yinStep defaultConfig ⟨161653/163840, 12, [1, 1, 1, 1, 1], some (550), 18⟩ none =
    (⟨648799/655360, 13, [1, 1, 1, 1, 1/2], none, 19⟩, 648799/655360) := by
  norm_num [yinStep, defaultConfig, det550, stabilizeEmit, pushDetection, median,
    dynamicSmoothingYin, clamp, List.insertionSort, List.orderedInsert, abs, sup_eq_max,
    max_def, min_def]

lemma yinC4Step20 : yinStep defaultConfig ⟨648799/655360, 13, [1, 1, 1, 1, 1/2], none, 19⟩ none =
    (⟨2601757/2621440, 14, [1, 1, 1, 1/2, 1/2], none, 20⟩, 2601757/2621440) := by
  norm_num [yinStep, defaultConfig, det550, stabilizeEmit, pushDetection, median,
    dynamicSmoothingYin, clamp, List.insertionSort, List.orderedInsert, abs, sup_eq_max,
    max_def, min_def]

lemma yinC4Step21 : yinStep defaultConfig ⟨2601757/2621440, 14, [1, 1, 1, 1/2, 1/2], none, 20⟩ none =
    (⟨30087511/52428800, 15, [1, 1, 1/2, 1/2, 1/2], none, 21⟩, 30087511/52428800) := by
  norm_num [yinStep, defaultConfig, det550, stabilizeEmit, pushDetection, median,
    dynamicSmoothingYin, clamp, List.insertionSort, List.orderedInsert, abs, sup_eq_max,
    max_def, min_def]

lemma yinC4Step22 : yinStep defaultConfig ⟨30087511/52428800, 15, [1, 1, 1/2, 1/2, 1/2], none, 21⟩ none =
    (⟨116476933/209715200, 16, [1, 1/2, 1/2, 1/2, 1/2], none, 22⟩, 116476933/209715200) := by
  norm_num [yinStep, defaultConfig, det550, stabilizeEmit, pushDetection, median,
    dynamicSmoothingYin, clamp, List.insertionSort, List.orderedInsert, abs, sup_eq_max,
    max_def, min_def]


lemma outcomesC4_eq : outcomesC4 = [some det550, none, none, none, none, none, none, none,
    none, none, none, none, none, none, none, none, none, none, none, none, none, none,
    none] := by decide

lemma emitsC4_eq : emitsC4 =
    [37/40, 151/160, 613/640, 2479/2560, 9997/10240, 40231/40960, 161653/163840,
     161653/163840, 161653/163840, 161653/163840, 161653/163840, 161653/163840,
     161653/163840, 161653/163840, 161653/163840, 161653/163840, 161653/163840,
     161653/163840, 161653/163840, 648799/655360, 2601757/2621440, 30087511/52428800,
     116476933/209715200] := by
  rw [emitsC4, outcomesC4_eq]
  simp only [yinRun, yinCtrlInit, yinC4Step0, yinC4Step1, yinC4Step2, yinC4Step3, yinC4Step4,
    yinC4Step5, yinC4Step6, yinC4Step7, yinC4Step8, yinC4Step9, yinC4Step10, yinC4Step11,
    yinC4Step12, yinC4Step13, yinC4Step14, yinC4Step15, yinC4Step16, yinC4Step17, yinC4Step18,
    yinC4Step19, yinC4Step20, yinC4Step21, yinC4Step22]

lemma stateAfter7 : yinRunState defaultConfig yinCtrlInit (outcomesC4.take 7) =
    ⟨161653/163840, 0, [1, 1, 1, 1, 1], some 550, 6⟩ := by
  rw [outcomesC4_eq]
  simp only [List.take, yinRunState, yinCtrlInit, yinC4Step0, yinC4Step1, yinC4Step2,
    yinC4Step3, yinC4Step4, yinC4Step5, yinC4Step6]

lemma stateAfter19 : yinRunState defaultConfig yinCtrlInit (outcomesC4.take 19) =
    ⟨161653/163840, 12, [1, 1, 1, 1, 1], some 550, 18⟩ := by
  rw [outcomesC4_eq]
  simp only [List.take, yinRunState, yinCtrlInit, yinC4Step0, yinC4Step1, yinC4Step2,
    yinC4Step3, yinC4Step4, yinC4Step5, yinC4Step6, yinC4Step7, yinC4Step8, yinC4Step9,
    yinC4Step10, yinC4Step11, yinC4Step12, yinC4Step13, yinC4Step14, yinC4Step15,
    yinC4Step16, yinC4Step17, yinC4Step18]

/-- Claim C4, counterexample: with the constants hard-coded in the source
(`silenceFrames < 6` hold window but fallback grace `fallbackTimer > 12`, not
10), silent frame 17 does not decay toward 0.5: it re-emits frame 16's value
unchanged (both equal the held smoothed value, which is not 0.5), and even
frame 19 moves away from 0.5 rather than toward it. -/
theorem silent_frames_schedule_counterexample :
    emitsC4.getD 17 0 = emitsC4.getD 16 0 ∧ emitsC4.getD 16 0 ≠ 1/2 ∧
    |emitsC4.getD 19 0 - 1/2| > |emitsC4.getD 18 0 - 1/2| := by
  rw [emitsC4_eq]
  norm_num [List.getD, abs, sup_eq_max, max_def, min_def]

/-- Claim C4, amended: in the scenario (one voiced frame at 550 Hz, then 22
silent frames, default configuration), frames 1-6 take the held branch
(feeding the normalized `lastFrequency` value 1 to the stabilizer: after
frame 6 the history is five copies of 1, `lastFrequency` is still 550 and
`silenceFrames` is 6), frames 7-18 emit the prior smoothed value unchanged
with nothing fed to the stabilizer (emits 7-18 all equal emit 6; the history
and smoothed value after frame 18 are those of frame 6, `fallbackTimer` is
12), and from frame 19 on the raw value 0.5 is fed; the emitted values
strictly approach 0.5 from frame 21 onward (once the neutral values reach the
history median), frames 19-20 still being pulled toward the stale held
median. -/
theorem silent_frames_schedule :
    yinRunState defaultConfig yinCtrlInit (outcomesC4.take 7) =
      ⟨161653/163840, 0, [1, 1, 1, 1, 1], some 550, 6⟩ ∧
    yinRunState defaultConfig yinCtrlInit (outcomesC4.take 19) =
      ⟨161653/163840, 12, [1, 1, 1, 1, 1], some 550, 18⟩ ∧
    ((emitsC4.drop 7).take 12 = List.replicate 12 (emitsC4.getD 6 0)) ∧
    emitsC4.getD 6 0 = 161653/163840 ∧
    |emitsC4.getD 20 0 - 1/2| > |emitsC4.getD 19 0 - 1/2| ∧
    |emitsC4.getD 21 0 - 1/2| < |emitsC4.getD 20 0 - 1/2| ∧
    |emitsC4.getD 22 0 - 1/2| < |emitsC4.getD 21 0 - 1/2| := by
  refine ⟨stateAfter7, stateAfter19, ?_, ?_, ?_, ?_, ?_⟩ <;> rw [emitsC4_eq] <;>
    norm_num [List.getD, List.replicate, abs, sup_eq_max, max_def, min_def]

/-! ### Lifecycle: stop/start does not reset the controller state (C2, C8) -/

lemma cexAfterVoiced_eq : cexAfterVoiced =
    ⟨defaultConfig, ⟨37/40, 0, [1], some 550, 0⟩, true, true, true, true⟩ := by
  simp only [cexAfterVoiced, PitchController.processFrame, PitchController.start,
    newPitchController]
  norm_num [yinC4Step0, yinCtrlInit]

/-- Claim C2, counterexample: after a session that saw one voiced frame
(smoothed value 37/40, history `[1]`, `lastFrequency` 550), calling `stop()`
and then a successful `start()` does NOT reset the state: the smoothed value
is still 37/40 (not 0.5), the history is still `[1]` (not empty) and
`lastFrequency` is still set. -/
theorem stop_start_no_reset_counterexample :
    cexRestarted.ctrl.normalizedValue = 37/40 ∧ cexRestarted.ctrl.normalizedValue ≠ 1/2 ∧
    cexRestarted.ctrl.recentDetections = [1] ∧ cexRestarted.ctrl.recentDetections ≠ [] ∧
    cexRestarted.ctrl.lastFrequency = some 550 := by
  have h : cexRestarted =
      ⟨defaultConfig, ⟨37/40, 0, [1], some 550, 0⟩, true, true, true, true⟩ := by
    rw [cexRestarted, cexStopped, cexAfterVoiced_eq]
    rfl
  rw [h]
  refine ⟨rfl, by norm_num, rfl, by simp, rfl⟩

/-- Claim C2, amended: `stop()` followed by `start()` leaves the whole
numeric ControllerState (smoothed value, history, counters, `lastFrequency`)
exactly as it was — the state persists across stop/start and is initialized
only at construction, where it does have the claimed initial values
(smoothedValue 0.5, empty history, cleared counters, no `lastFrequency`). -/
theorem stop_start_state_persistence :
    (∀ s : YinController,
      ((PitchController.start (PitchController.stop s) true).state).ctrl = s.ctrl) ∧
    yinCtrlInit.normalizedValue = 1/2 ∧ yinCtrlInit.recentDetections = ([] : List ℚ) ∧
    yinCtrlInit.lastFrequency = none ∧ yinCtrlInit.silenceFrames = 0 ∧
    yinCtrlInit.fallbackTimer = 0 :=
  ⟨fun _ => rfl, rfl, rfl, rfl, rfl, rfl⟩

/-! ### Dynamic smoothing monotonicity (C3) -/

/-- Claim C3, counterexample: with the configured baseline smoothing 0.7
(within the claimed range `0 < smoothing < 1`) and deltas `d1 = 1/10 <
d2 = 1/5` (both in `[0, 1]`), the three-tier dynamic smoothing selects
`α(d2) = 0.55 < α(d1) = max(0.7, 0.18) = 0.7`: larger delta selects a
strictly smaller factor. -/
theorem dynamic_smoothing_monotone_counterexample :
    0 < (7:ℚ)/10 ∧ (7:ℚ)/10 < 1 ∧ (0:ℚ) ≤ 1/10 ∧ (1:ℚ)/10 < 1/5 ∧ (1:ℚ)/5 ≤ 1 ∧
    dynamicSmoothingYin (7/10) (1/5) < dynamicSmoothingYin (7/10) (1/10) := by
  norm_num [dynamicSmoothingYin, max_def]

/-- Claim C3, amended: the dynamic smoothing factor is monotone in the delta
provided the configured baseline does not exceed the middle tier: for the
three-tier variant (baseline tier `max(smoothing, 0.18)`, tiers 0.55 and
0.85) whenever `0 < smoothing ≤ 0.55`, and for the two-tier variant (tiers
0.4 and 0.55) whenever `0 < smoothing ≤ 0.4`.  The defaults (0.25 and 0.15)
satisfy these bounds. -/
theorem dynamic_smoothing_monotone :
    (∀ smoothing d1 d2 : ℚ, 0 < smoothing → smoothing ≤ 11/20 → 0 ≤ d1 → d1 < d2 → d2 ≤ 1 →
      dynamicSmoothingYin smoothing d1 ≤ dynamicSmoothingYin smoothing d2) ∧
    (∀ smoothing d1 d2 : ℚ, 0 < smoothing → smoothing ≤ 2/5 → 0 ≤ d1 → d1 < d2 → d2 ≤ 1 →
      dynamicSmoothingAc smoothing d1 ≤ dynamicSmoothingAc smoothing d2) := by
  constructor
  · intro s d1 d2 h0 hb hd1 hlt hd2
    unfold dynamicSmoothingYin
    split_ifs <;>
      first
        | linarith
        | exact le_refl _
        | exact max_le (by linarith) (by norm_num)
  · intro s d1 d2 h0 hb hd1 hlt hd2
    unfold dynamicSmoothingAc
    split_ifs <;> linarith

/-- Witness for the amended C3 at concrete inputs. -/
theorem dynamic_smoothing_monotone_witness :
    dynamicSmoothingYin (1/4) (1/10) ≤ dynamicSmoothingYin (1/4) (3/10) ∧
    dynamicSmoothingAc (3/20) (1/20) ≤ dynamicSmoothingAc (3/20) (1/2) :=
  ⟨dynamic_smoothing_monotone.1 (1/4) (1/10) (3/10) (by norm_num) (by norm_num) (by norm_num)
      (by norm_num) (by norm_num),
   dynamic_smoothing_monotone.2 (3/20) (1/20) (1/2) (by norm_num) (by norm_num) (by norm_num)
      (by norm_num) (by norm_num)⟩

/-! ### The median against its sorted-list specification (C7) -/

/-- Claim C7: for every non-empty history, `median` returns the middle
element of the sorted history when the length is odd, and the mean of the two
middle sorted elements when the length is even; in particular
`median [0.2, 0.8] = 0.5` and `median [0.1, 0.2, 0.9] = 0.2`. -/
theorem median_matches_sorted_spec :
    (∀ (l s : List ℚ), l ≠ [] → l.Perm s → s.Sorted (· ≤ ·) →
      median l = if l.length % 2 = 0 then
          (s.getD (l.length / 2 - 1) 0 + s.getD (l.length / 2) 0) / 2
        else s.getD (l.length / 2) 0) ∧
    median [2/10, 8/10] = 1/2 ∧ median [1/10, 2/10, 9/10] = 1/5 := by
  refine ⟨?_, ?_, ?_⟩
  · intro l s hne hperm hsort
    have hs : l.insertionSort (· ≤ ·) = s :=
      List.eq_of_perm_of_sorted ((List.perm_insertionSort (· ≤ ·) l).trans hperm)
        (List.sorted_insertionSort (· ≤ ·) l) hsort
    simp only [median, hs]
    rw [← hperm.length_eq]
  · norm_num [median, List.insertionSort, List.orderedInsert, List.getD_cons_zero,
      List.getD_cons_succ]
  · norm_num [median, List.insertionSort, List.orderedInsert, List.getD_cons_zero,
      List.getD_cons_succ]

/-- Witness for C7: the general sorted-median clause instantiated at the
(already sorted) three-element history `[0.1, 0.2, 0.9]`. -/
theorem median_matches_sorted_spec_witness :
    median [1/10, 2/10, 9/10] =
      if ([(1:ℚ)/10, 2/10, 9/10] : List ℚ).length % 2 = 0 then
        (([(1:ℚ)/10, 2/10, 9/10] : List ℚ).getD
            (([(1:ℚ)/10, 2/10, 9/10] : List ℚ).length / 2 - 1) 0 +
          ([(1:ℚ)/10, 2/10, 9/10] : List ℚ).getD
            (([(1:ℚ)/10, 2/10, 9/10] : List ℚ).length / 2) 0) / 2
      else ([(1:ℚ)/10, 2/10, 9/10] : List ℚ).getD
        (([(1:ℚ)/10, 2/10, 9/10] : List ℚ).length / 2) 0 :=
  median_matches_sorted_spec.1 [1/10, 2/10, 9/10] [1/10, 2/10, 9/10] (by simp)
    (List.Perm.refl _) (by norm_num [List.sorted_cons])

/-! ### Resource-acquisition failure during start (C8) -/

/-- Claim C8, counterexample: when `start()` fails on a controller that had
previously run and been stopped, the failure does propagate and `isRunning`
stays false, but the controller still holds its stale analyser reference —
`stop()` clears only `audioContext`, never `analyser` — so "no partial audio
resource (audioContext/analyser) is held" is false. -/
theorem start_failure_counterexample :
    (PitchController.start cexStopped false).threw = true ∧
    (PitchController.start cexStopped false).state.isRunning = false ∧
    (PitchController.start cexStopped false).state.audioContext = false ∧
    (PitchController.start cexStopped false).state.analyser = true := by
  have h : cexStopped =
      ⟨defaultConfig, ⟨37/40, 0, [1], some 550, 0⟩, false, false, true, true⟩ := by
    rw [cexStopped, cexAfterVoiced_eq]
    rfl
  rw [h]
  exact ⟨rfl, rfl, rfl, rfl⟩

/-- Claim C8, amended: a failing acquisition during `start()` propagates the
failure to the caller and performs no state mutation at all (the `await`
precedes every assignment): the controller state is exactly what it was, so
`isRunning` remains false, and in particular a freshly constructed controller
holds no audioContext and no analyser.  A previously-stopped controller,
however, retains its stale analyser reference. -/
theorem start_failure_clean (s : YinController) (h : s.isRunning = false) :
    (PitchController.start s false).threw = true ∧
    (PitchController.start s false).state = s ∧
    (PitchController.start s false).state.isRunning = false ∧
    (PitchController.start (newPitchController defaultConfig) false).state.audioContext =
      false ∧
    (PitchController.start (newPitchController defaultConfig) false).state.analyser = false := by
  have hs : PitchController.start s false = ⟨true, s⟩ := by
    simp [PitchController.start, h]
  rw [hs]
  exact ⟨rfl, rfl, h, rfl, rfl⟩

/-- Witness for the amended C8 at a freshly constructed controller. -/
theorem start_failure_clean_witness :
    (PitchController.start (newPitchController defaultConfig) false).threw = true ∧
    (PitchController.start (newPitchController defaultConfig) false).state =
      newPitchController defaultConfig ∧
    (PitchController.start (newPitchController defaultConfig) false).state.isRunning = false ∧
    (PitchController.start (newPitchController defaultConfig) false).state.audioContext =
      false ∧
    (PitchController.start (newPitchController defaultConfig) false).state.analyser = false :=
  start_failure_clean (newPitchController defaultConfig) rfl

/-! ### The YIN threshold search and the low-confidence rejection (C9, C5) -/

lemma yinDescendAux_le (n : ℕ → ℚ) (tauMax : ℕ) :
    ∀ fuel tau, n (yinDescendAux n tauMax fuel tau) ≤ n tau := by
  intro fuel
  induction fuel with
  | zero => intro tau; simp [yinDescendAux]
  | succ f ih =>
    intro tau
    simp only [yinDescendAux]
    split
    next hc => exact le_trans (ih (tau + 1)) hc.2.le
    next => exact le_refl _

/-- If the threshold search returns a candidate, the normalized difference
there is below the 0.12 threshold (the first hit is below it and the descent
to the local minimum only decreases it). -/
lemma yinSearch_some_lt {w : List ℚ} {tauMin tauMax tau : ℕ}
    (h : yinSearch (yinNorm w) tauMin tauMax = some tau) :
    yinNorm w tau < 12/100 := by
  rw [yinSearch] at h
  cases hfind : (List.range' tauMin (tauMax - tauMin)).find?
      (fun t => decide (yinNorm w t < 12/100)) with
  | none => rw [hfind] at h; simp at h
  | some t0 =>
    rw [hfind] at h
    have h' : yinDescend (yinNorm w) tauMax t0 = tau := by simpa using h
    have ht0 : yinNorm w t0 < 12/100 := by
      have := List.find?_some hfind
      simpa using this
    have hle : yinNorm w tau ≤ yinNorm w t0 :=
      h' ▸ yinDescendAux_le (yinNorm w) tauMax tauMax t0
    exact lt_of_le_of_lt hle ht0

/-- Claim C9: the low-confidence rejection branch of the YIN detector is
unreachable — whenever the threshold search finds a candidate `tau`, the
normalized difference at `tau` is below the 0.12 threshold, so the computed
confidence `1 - yinBuffer[tau]` exceeds 0.88 and the `probability < 0.1`
rejection never fires. -/
theorem yin_low_confidence_rejection_unreachable (w : List ℚ) (tauMin tauMax tau : ℕ)
    (h : yinSearch (yinNorm w) tauMin tauMax = some tau) :
    yinNorm w tau < 12/100 ∧ 88/100 < 1 - yinNorm w tau ∧ ¬(1 - yinNorm w tau < 1/10) := by
  have hτ := yinSearch_some_lt h
  exact ⟨hτ, by linarith, by intro hc; linarith⟩

/-- Witness for C9 on a concrete period-2 buffer where the search finds
`tau = 2`. -/
theorem yin_low_confidence_rejection_unreachable_witness :
    yinNorm w8 2 < 12/100 ∧ 88/100 < 1 - yinNorm w8 2 ∧ ¬(1 - yinNorm w8 2 < 1/10) :=
  yin_low_confidence_rejection_unreachable w8 2 4 2 (by with_unfolding_all decide)

/-! ### The autocorrelation fallback branch (C10) -/

/-- Invariant of the offset scan: either some offset `≥ 1` has been recorded,
or the scan state still has the initial `-1`/`0` sentinel pair. -/
def AcScanOk (st : AcScan) : Prop :=
  1 ≤ st.bestOffset ∨ (st.bestOffset = -1 ∧ st.bestCorrelation = 0)

lemma sumTo_eq_zero {f : ℕ → ℚ} (hf : ∀ i, f i = 0) : ∀ n, sumTo f n = 0 := by
  intro n
  induction n with
  | zero => rfl
  | succ k ih => rw [sumTo, ih, hf]; norm_num

lemma sumTo_nonneg {f : ℕ → ℚ} (hf : ∀ i, 0 ≤ f i) : ∀ n, 0 ≤ sumTo f n := by
  intro n
  induction n with
  | zero => exact le_refl 0
  | succ k ih => rw [sumTo]; have := hf k; linarith

/-- At offset 0 the correlation is exactly 1 (the sum of `|x - x|` terms is
zero). -/
lemma acCorrelation_offset_zero (buffer : List ℚ) (maxSamples : ℕ) :
    acCorrelation buffer maxSamples 0 = 1 := by
  unfold acCorrelation
  rw [sumTo_eq_zero (fun i => by simp)]
  norm_num

lemma acLoop_scanOk (buffer : List ℚ) (sr : ℚ) (ms : ℕ) :
    ∀ (os : List ℕ) (st : AcScan), (∀ o ∈ os, 1 ≤ o) → AcScanOk st →
      ∀ st', acLoop buffer sr ms os st = Sum.inl st' → AcScanOk st' := by
  intro os
  induction os with
  | nil =>
    intro st _ hok st' h
    simp only [acLoop, Sum.inl.injEq] at h
    exact h ▸ hok
  | cons o os ih =>
    intro st hos hok st' h
    have h1o : 1 ≤ o := hos o (List.mem_cons_self o os)
    have htail : ∀ x ∈ os, 1 ≤ x := fun x hx => hos x (List.mem_cons_of_mem o hx)
    simp only [acLoop] at h
    split at h
    · refine ih _ htail ?_ st' h
      split
      · left
        show (1 : ℤ) ≤ (o : ℤ)
        exact_mod_cast h1o
      · exact hok
    · split at h
      · exact absurd h (by simp)
      · refine ih _ htail ?_ st' h
        exact hok

/-- The first loop iteration (offset 0) never records a candidate: its
correlation is exactly 1, which is not strictly greater than the initial
`lastCorrelation = 1`, so the scan continues with an unchanged best state. -/
lemma acLoop_start_zero (buffer : List ℚ) (sr : ℚ) (ms : ℕ) (rest : List ℕ) :
    acLoop buffer sr ms (0 :: rest) acScanInit = acLoop buffer sr ms rest acScanInit := by
  simp only [acLoop, acCorrelation_offset_zero, acScanInit]
  norm_num

/-- Claim C10: whenever `autoCorrelate`'s fallback branch is reached (the
offset loop falls through with `bestCorrelation > 0.01`), the recorded
`bestOffset` is at least 1 — the offset-0 candidate can never be recorded
because its correlation 1 is not strictly greater than the initial
`lastCorrelation` 1 — so the fallback result `sampleRate / bestOffset` is a
well-defined positive number and no division by zero or by the `-1` sentinel
occurs. -/
theorem autocorrelate_fallback_positive (buffer : List ℚ) (sampleRate : ℚ) (st : AcScan)
    (hsr : 0 < sampleRate)
    (hloop : acLoop buffer sampleRate (buffer.length / 2)
      (List.range (buffer.length / 2)) acScanInit = Sum.inl st)
    (hbc : 1/100 < st.bestCorrelation) :
    1 ≤ st.bestOffset ∧ st.bestOffset ≠ 0 ∧ st.bestOffset ≠ -1 ∧
      0 < sampleRate / (st.bestOffset : ℚ) := by
  have hok : AcScanOk st := by
    rcases Nat.eq_zero_or_pos (buffer.length / 2) with hz | hpos
    · rw [hz] at hloop
      simp only [List.range_zero, acLoop, Sum.inl.injEq] at hloop
      rw [← hloop]
      exact Or.inr ⟨rfl, rfl⟩
    · have hn : buffer.length / 2 = (buffer.length / 2 - 1) + 1 :=
        (Nat.succ_pred_eq_of_pos hpos).symm
      rw [List.range_eq_range', hn, List.range'_succ, acLoop_start_zero] at hloop
      refine acLoop_scanOk buffer sampleRate _ _ acScanInit ?_ (Or.inr ⟨rfl, rfl⟩) st hloop
      intro x hx
      have := List.mem_range'.mp hx
      omega
  rcases hok with h1 | h2
  · have hoff : (1 : ℚ) ≤ (st.bestOffset : ℚ) := by exact_mod_cast h1
    exact ⟨h1, by omega, by omega, div_pos hsr (lt_of_lt_of_le zero_lt_one hoff)⟩
  · rw [h2.2] at hbc
    norm_num at hbc

/-- Witness for C10: a period-2 buffer whose scan falls through with
`bestOffset = 2` recorded at the last offset. -/
theorem autocorrelate_fallback_positive_witness :
    1 ≤ (AcScan.mk 2 1 1 true).bestOffset ∧ (AcScan.mk 2 1 1 true).bestOffset ≠ 0 ∧
    (AcScan.mk 2 1 1 true).bestOffset ≠ -1 ∧
    0 < (6 : ℚ) / ((AcScan.mk 2 1 1 true).bestOffset : ℚ) :=
  autocorrelate_fallback_positive [1, -1, 1, -1, 1, -1] 6 ⟨2, 1, 1, true⟩ (by norm_num)
    (by with_unfolding_all decide) (by norm_num)

/-! ### Silent buffers yield no detection (C6) -/

lemma getD_zero_of_all_zero {l : List ℚ} (h : ∀ x ∈ l, x = 0) (i : ℕ) : l.getD i 0 = 0 := by
  rcases lt_or_ge i l.length with hi | hi
  · rw [List.getD_eq_getElem?_getD, List.getElem?_eq_getElem hi]
    exact h _ (List.getElem_mem hi)
  · rw [List.getD_eq_getElem?_getD, List.getElem?_eq_none hi]
    rfl

/-- Claim C6: for every zero-amplitude (all-samples-zero) buffer and every
positive sample rate (and any window coefficients and frequency bounds), both
the autocorrelation detector and the YIN detector return no-detection. -/
theorem silent_buffer_no_detection (buffer : List ℚ) (sampleRate minFreq maxFreq : ℚ)
    (coeff : ℕ → ℚ) (hz : ∀ x ∈ buffer, x = 0) (_hsr : 0 < sampleRate) :
    autoCorrelate buffer sampleRate = none ∧
    yinPitch coeff buffer sampleRate minFreq maxFreq = none := by
  have hgetD := getD_zero_of_all_zero hz
  constructor
  · by_cases hb : buffer = []
    · subst hb
      norm_num [autoCorrelate, acLoop, acScanInit, sumTo]
    · have hlen : 0 < buffer.length := List.length_pos.mpr hb
      have hss : sumTo (fun i => buffer.getD i 0 * buffer.getD i 0) buffer.length = 0 :=
        sumTo_eq_zero (fun i => by rw [hgetD, mul_zero]) _
      simp only [autoCorrelate]
      rw [if_pos]
      refine ⟨hlen, ?_⟩
      rw [hss, zero_div]
      norm_num
  · have hw : ∀ x ∈ hannWindowWith coeff buffer, x = 0 := by
      intro x hx
      simp only [hannWindowWith, List.mem_map] at hx
      obtain ⟨i, _, rfl⟩ := hx
      rw [hgetD, zero_mul]
    have hwgetD := getD_zero_of_all_zero hw
    have hdiff : ∀ t, diffFn (hannWindowWith coeff buffer) t = 0 := by
      intro t
      apply sumTo_eq_zero
      intro i
      rw [hwgetD, hwgetD]
      norm_num
    have hcum : ∀ t, cumSum (hannWindowWith coeff buffer) t = 0 := by
      intro t
      apply sumTo_eq_zero
      intro k
      exact hdiff (k + 1)
    simp only [yinPitch, yinPitchFrom]
    split
    · rfl
    · rw [if_pos]
      rw [hcum]
      norm_num

/-- Witness for C6 on the zero buffer of length 4 at 44100 Hz. -/
theorem silent_buffer_no_detection_witness :
    autoCorrelate [0, 0, 0, 0] 44100 = none ∧
    yinPitch onesCoeff [0, 0, 0, 0] 44100 110 550 = none :=
  silent_buffer_no_detection [0, 0, 0, 0] 44100 110 550 onesCoeff (by simp) (by norm_num)

/-! ### The YIN detector's returned estimate (C5) -/

/-- The final step of `yinPitchFrom`: if the zero-`betterTau` (non-finite
frequency) guard passes, the estimate is exactly the quotient/confidence
pair, and the frequency cannot be zero. -/
lemma yin_final_some {sampleRate bt prob : ℚ} {est : PitchEstimate}
    (h : (if bt = 0 then none else some ⟨sampleRate / bt, prob⟩) = some est)
    (hsr : 0 < sampleRate) :
    est.probability = prob ∧ est.frequency ≠ 0 := by
  split at h
  · exact absurd h (by simp)
  next hbt =>
    have hinj := Option.some.inj h
    subst hinj
    exact ⟨rfl, div_ne_zero (ne_of_gt hsr) hbt⟩

lemma yinNorm_nonneg (w : List ℚ) (tau : ℕ) : 0 ≤ yinNorm w tau := by
  unfold yinNorm
  split
  · norm_num
  · apply div_nonneg
    · apply mul_nonneg
      · exact sumTo_nonneg (fun i => sq_nonneg _) _
      · positivity
    · exact sumTo_nonneg (fun k => sumTo_nonneg (fun i => sq_nonneg _) _) _

/-- Claim C5, amended: whenever the YIN detector returns an estimate, the
returned confidence lies in `[0, 1]` (indeed strictly above 0.88, by the
threshold search), and the returned frequency is nonzero — but it is not
always strictly positive: the parabolic-interpolation step can push
`betterTau` negative (see the counterexample). -/
theorem yin_estimate_confidence_bounds (coeff : ℕ → ℚ) (buffer : List ℚ)
    (sampleRate minFreq maxFreq : ℚ) (est : PitchEstimate) (hsr : 0 < sampleRate)
    (h : yinPitch coeff buffer sampleRate minFreq maxFreq = some est) :
    (0 ≤ est.probability ∧ est.probability ≤ 1 ∧ 88/100 < est.probability) ∧
    est.frequency ≠ 0 := by
  simp only [yinPitch, yinPitchFrom] at h
  split at h
  · exact absurd h (by simp)
  · split at h
    · exact absurd h (by simp)
    · split at h
      · exact absurd h (by simp)
      next tauE hsearch =>
        split at h
        · exact absurd h (by simp)
        next hprob =>
          have hlt := yinSearch_some_lt hsearch
          have hnn := yinNorm_nonneg (hannWindowWith coeff buffer) tauE
          split at h
          · split at h <;>
              · have hfin := yin_final_some h hsr
                refine ⟨⟨?_, ?_, ?_⟩, hfin.2⟩ <;> rw [hfin.1] <;> linarith
          · have hfin := yin_final_some h hsr
            refine ⟨⟨?_, ?_, ?_⟩, hfin.2⟩ <;> rw [hfin.1] <;> linarith

/-- Witness for the amended C5 on a period-2 buffer where the detector
returns the estimate `⟨144/35, 1⟩`. -/
theorem yin_estimate_confidence_bounds_witness :
    ((0:ℚ) ≤ (PitchEstimate.mk (144/35) 1).probability ∧
      (PitchEstimate.mk (144/35) 1).probability ≤ 1 ∧
      (88:ℚ)/100 < (PitchEstimate.mk (144/35) 1).probability) ∧
    (PitchEstimate.mk (144/35) 1).frequency ≠ 0 :=
  yin_estimate_confidence_bounds onesCoeff w8 8 2 4 ⟨144/35, 1⟩ (by norm_num)
    (by with_unfolding_all decide)

lemma cexHann : hannWindowWith cexCoeff cexBuffer = cexW := by
  norm_num [hannWindowWith, cexCoeff, cexCoeffList, cexBuffer, cexW, List.range_succ]

lemma cexWLen : cexW.length = 20 := rfl

lemma cexDiff1 : diffFn cexW 1 = (43802284645420017 : ℚ)/500000000000000000 := by
  norm_num [diffFn, cexW, sumTo]

lemma cexDiff2 : diffFn cexW 2 = (162518313413715481 : ℚ)/1000000000000000000 := by
  norm_num [diffFn, cexW, sumTo]

lemma cexDiff3 : diffFn cexW 3 = (312449595983862477 : ℚ)/1000000000000000000 := by
  norm_num [diffFn, cexW, sumTo]

lemma cexDiff4 : diffFn cexW 4 = (384682856666066351 : ℚ)/1000000000000000000 := by
  norm_num [diffFn, cexW, sumTo]

lemma cexDiff5 : diffFn cexW 5 = (352739167159364633 : ℚ)/1000000000000000000 := by
  norm_num [diffFn, cexW, sumTo]

lemma cexDiff6 : diffFn cexW 6 = (300147716903354947 : ℚ)/1000000000000000000 := by
  norm_num [diffFn, cexW, sumTo]

lemma cexDiff7 : diffFn cexW 7 = (168709840846425821 : ℚ)/1000000000000000000 := by
  norm_num [diffFn, cexW, sumTo]

lemma cexDiff8 : diffFn cexW 8 = (6446972952760553 : ℚ)/62500000000000000 := by
  norm_num [diffFn, cexW, sumTo]

lemma cexDiff9 : diffFn cexW 9 = (21328020669041291 : ℚ)/1000000000000000000 := by
  norm_num [diffFn, cexW, sumTo]

lemma cexDiff10 : diffFn cexW 10 = (22716239504090733 : ℚ)/1000000000000000000 := by
  norm_num [diffFn, cexW, sumTo]

lemma cexDiff11 : diffFn cexW 11 = (24229979229280263 : ℚ)/1000000000000000000 := by
  norm_num [diffFn, cexW, sumTo]

lemma cexCum9 : cumSum cexW 9 = (1893331648176839883 : ℚ)/1000000000000000000 := by
  norm_num [cumSum, sumTo, cexDiff1, cexDiff2, cexDiff3, cexDiff4, cexDiff5, cexDiff6, cexDiff7, cexDiff8, cexDiff9]

lemma cexCum10 : cumSum cexW 10 = (239505985960116327 : ℚ)/125000000000000000 := by
  norm_num [cumSum, sumTo, cexDiff1, cexDiff2, cexDiff3, cexDiff4, cexDiff5, cexDiff6, cexDiff7, cexDiff8, cexDiff9, cexDiff10]

lemma cexCum11 : cumSum cexW 11 = (1940277866910210879 : ℚ)/1000000000000000000 := by
  norm_num [cumSum, sumTo, cexDiff1, cexDiff2, cexDiff3, cexDiff4, cexDiff5, cexDiff6, cexDiff7, cexDiff8, cexDiff9, cexDiff10, cexDiff11]

lemma cexNorm9 : yinNorm cexW 9 = (21328020669041291 : ℚ)/210370183130759987 := by
  norm_num [yinNorm, cexDiff9, cexCum9]

lemma cexNorm10 : yinNorm cexW 10 = (12620133057828185 : ℚ)/106447104871162812 := by
  norm_num [yinNorm, cexDiff10, cexCum10]

lemma cexNorm11 : yinNorm cexW 11 = (88843257174027631 : ℚ)/646759288970070293 := by
  norm_num [yinNorm, cexDiff11, cexCum11]

lemma cexSearch : yinSearch (yinNorm cexW) 10 12 = some 10 := by
  rw [yinSearch]
  have h1 : List.range' 10 (12 - 10) = [10, 11] := by norm_num [List.range']
  rw [h1]
  have h2 : List.find? (fun tau => decide (yinNorm cexW tau < 12/100)) [10, 11] = some 10 := by
    apply List.find?_cons_of_pos
    simp only [cexNorm10, decide_eq_true_eq]
    norm_num
  rw [h2]
  have h12 : (12 : ℕ) = 11 + 1 := rfl
  have hneg : ¬(10 + 1 < 12 ∧ yinNorm cexW (10 + 1) < yinNorm cexW 10) := by
    intro hcon
    have h2' := hcon.2
    rw [show (10:ℕ) + 1 = 11 from rfl, cexNorm11, cexNorm10] at h2'
    norm_num at h2'
  have hd : yinDescend (yinNorm cexW) 12 10 = 10 := by
    rw [yinDescend, h12, yinDescendAux, if_neg hneg]
  simp only [hd]

/-- Claim C5, counterexample: on the 20-sample buffer `cexBuffer` (samples
in `[-1, 1]`) under the Hann window, with sample rate 120 and frequency
bounds 10-12 Hz, the YIN detector finds the candidate `tauEstimate = 10` at
the lower edge of the search range (`yinBuffer[10] ≈ 0.1186 < 0.12`, no
descent since `yinBuffer[11] ≈ 0.1374`); there `yinBuffer[9] ≈ 0.1014` is
below `yinBuffer[10]`, the parabolic-interpolation denominator
`s0 + s2 - 2*s1 ≈ 0.00163` is tiny and positive, and the interpolation
pushes `betterTau` to about `-1.0074`; the `isFinite` check passes (the
frequency is finite) and the detector returns an estimate whose frequency
`120 / betterTau ≈ -119.1` Hz is strictly negative — refuting "the returned
frequency is strictly greater than 0".  (Running the JS source at this
buffer, with the true transcendental Hann coefficients and float32 storage,
returns `-119.06` Hz through the same branches.) -/
theorem yin_negative_frequency_counterexample :
    yinPitch cexCoeff cexBuffer 120 10 12 =
      some ⟨(-177546601685535945360467970081354973671751674075375)/1490447078766835782155682588316190515057076222644,
            93826971813334627/106447104871162812⟩ ∧
    ((-177546601685535945360467970081354973671751674075375 : ℚ))/1490447078766835782155682588316190515057076222644 < 0 := by
  constructor
  · rw [yinPitch, cexHann, yinPitchFrom]
    have t10 : ((10 : ℤ)).toNat = 10 := rfl
    have t12 : ((12 : ℤ)).toNat = 12 := rfl
    norm_num [cexWLen, t10, t12, cexSearch, cexNorm9, cexNorm10, cexNorm11, cexCum11]
  · norm_num
